import Mathlib

/-!
Shallow embedding of `worker.py` (Monocle): the single-worker visit pipeline,
retry loop, identity/circuit rotation, request-chain bookkeeping and the
`BusyLock` primitive, together with proofs settling the specification claims.

Modelling conventions:
* Python ints are `Int`/`Nat`; Python floats arising from true division or
  `monotonic()` are idealized as `ℚ`.
* Python `round` is banker's rounding, modelled by `pyRound`.
* Exceptions become explicit outcome values; stateful methods become pure
  functions on explicit state records.
* External collaborators excluded by the spec (despawn estimator, dedupe
  caches) are passed in as function parameters.
-/

namespace Monocle

/-- Python's `round` on a rational: round half to even (banker's rounding). -/
def pyRound (q : ℚ) : ℤ :=
  if q - ⌊q⌋ < 1/2 then ⌊q⌋
  else if q - ⌊q⌋ > 1/2 then ⌊q⌋ + 1
  else if ⌊q⌋ % 2 = 0 then ⌊q⌋ else ⌊q⌋ + 1

/-- Validity tag stored in a normalized sighting's `valid` entry.
In the source the Python values are `True`, `False`, `'fixed'` and
`'pokestop'` respectively. -/
inductive Validity
  | valid
  | invalid
  | fixed
  | pokestop
  deriving DecidableEq, Repr

/-- Raw wild-pokemon record of a map cell (`map_cell['wild_pokemons']` entry),
with the fields `worker.py` reads. -/
structure RawPokemon where
  encounter_id : Nat
  pokemon_id : Nat
  time_till_hidden_ms : Int
  latitude : ℚ
  longitude : ℚ
  last_modified_timestamp_ms : Int
  spawn_point_id : Nat
  deriving DecidableEq, Repr

/-- Modelled from the spec: `get_spawn_id` lives in `utils`, outside the
provided sources. The spec only requires a stable spawn key handed to the
despawn estimator (`estimate(spawnKey, observedAt)`), so it is modelled as
the raw sighting's spawn point identifier. -/
def get_spawn_id (raw : RawPokemon) : Int := raw.spawn_point_id

/-- Normalized wild-creature sighting (`Worker.normalize_pokemon` output,
with `valid` written later by `visit_point`; `none` = key absent). -/
structure PokemonEntity where
  encounter_id : Nat
  pokemon_id : Nat
  expire_timestamp : Int
  lat : ℚ
  lon : ℚ
  spawn_id : Int
  time_till_hidden_ms : Int
  seen : Int
  valid : Option Validity
  deriving DecidableEq, Repr

/-- `Worker.normalize_pokemon` (worker.py lines 826-839). -/
def normalize_pokemon (raw : RawPokemon) (now : Int) : PokemonEntity :=
  { encounter_id := raw.encounter_id
    pokemon_id := raw.pokemon_id
    expire_timestamp := pyRound (((now + raw.time_till_hidden_ms : ℤ) : ℚ) / 1000)
    lat := raw.latitude
    lon := raw.longitude
    spawn_id := get_spawn_id raw
    time_till_hidden_ms := raw.time_till_hidden_ms
    seen := pyRound ((raw.last_modified_timestamp_ms : ℚ) / 1000)
    valid := none }

/-- Lure payload of a fort record (`fort['lure_info']`). -/
structure LureInfo where
  encounter_id : Nat
  active_pokemon_id : Nat
  lure_expires_timestamp_ms : Int
  deriving DecidableEq, Repr

/-- Raw fort record of a map cell (`map_cell['forts']` entry), with the
fields `worker.py` reads. `lure_info := none` models the key being absent. -/
structure RawFort where
  id : Nat
  enabled : Bool
  type : Nat
  latitude : ℚ
  longitude : ℚ
  owned_by_team : Nat
  gym_points : Nat
  guard_pokemon_id : Nat
  last_modified_timestamp_ms : Int
  lure_info : Option LureInfo
  cooldown_complete_timestamp_ms : Option Int
  deriving DecidableEq, Repr

/-- Normalized lured sighting (`Worker.normalize_lured` output). The
`expire_timestamp` is a Python float (true division), hence `ℚ` here. -/
structure LuredEntity where
  encounter_id : Nat
  pokemon_id : Nat
  expire_timestamp : ℚ
  lat : ℚ
  lon : ℚ
  spawn_id : Int
  time_till_hidden_ms : Int
  valid : Validity
  deriving DecidableEq, Repr

/-- `Worker.normalize_lured` (worker.py lines 841-853). The call site
guards on `lure_info` being present, so the payload `li` (the value of
`raw['lure_info']`) is passed explicitly. -/
def normalize_lured (raw : RawFort) (li : LureInfo) (now : Int) : LuredEntity :=
  { encounter_id := li.encounter_id
    pokemon_id := li.active_pokemon_id
    expire_timestamp := (li.lure_expires_timestamp_ms : ℚ) / 1000
    lat := raw.latitude
    lon := raw.longitude
    spawn_id := -1
    time_till_hidden_ms := li.lure_expires_timestamp_ms - now
    valid := Validity.pokestop }

/-- Normalized gym (`Worker.normalize_gym` output). -/
structure GymEntity where
  external_id : Nat
  lat : ℚ
  lon : ℚ
  team : Nat
  prestige : Nat
  guard_pokemon_id : Nat
  last_modified : Int
  deriving DecidableEq, Repr

/-- `Worker.normalize_gym` (worker.py lines 855-866). -/
def normalize_gym (raw : RawFort) : GymEntity :=
  { external_id := raw.id
    lat := raw.latitude
    lon := raw.longitude
    team := raw.owned_by_team
    prestige := raw.gym_points
    guard_pokemon_id := raw.guard_pokemon_id
    last_modified := pyRound ((raw.last_modified_timestamp_ms : ℚ) / 1000) }

/-- Normalized pokestop (`Worker.normalize_pokestop` output). -/
structure PokestopEntity where
  external_id : Nat
  lat : ℚ
  lon : ℚ
  deriving DecidableEq, Repr

/-- `Worker.normalize_pokestop` (worker.py lines 868-875). -/
def normalize_pokestop (raw : RawFort) : PokestopEntity :=
  { external_id := raw.id
    lat := raw.latitude
    lon := raw.longitude }

/-- Everything `db_processor.add` can receive from `visit_point`. -/
inductive Entity
  | pokemonE (p : PokemonEntity)
  | luredE (l : LuredEntity)
  | pokestopE (s : PokestopEntity)
  | gymE (g : GymEntity)
  deriving DecidableEq, Repr

/-- External collaborators used by the visit pipeline, excluded from the core
by the spec: the two dedupe caches (`SIGHTING_CACHE`, `MYSTERY_CACHE` from
`db`) as membership tests, and the despawn estimator
(`spawns.get_despawn_time(spawn_id, seen)`). -/
structure Collab where
  inSightingCache : PokemonEntity → Bool
  inMysteryCache : PokemonEntity → Bool
  inLuredSightingCache : LuredEntity → Bool
  get_despawn_time : Int → Int → Option Int

/-- Per-wild-sighting classification step of `Worker.visit_point`
(worker.py lines 529-553): normalize, then either trust an in-range
`time_till_hidden_ms` (`valid := True`) or defer to the despawn estimator
(patching expiry/tth and setting `valid := 'fixed'` on a truthy lookup,
`valid := False` otherwise; Python's `if despawn_time:` treats a zero
result like an absent one). -/
def classify_wild (C : Collab) (raw : RawPokemon) (request_time_ms : Int) :
    PokemonEntity :=
  let invalid_tth :=
    raw.time_till_hidden_ms < 0 ∨ raw.time_till_hidden_ms > 90000
  let normalized := normalize_pokemon raw request_time_ms
  if invalid_tth then
    match C.get_despawn_time normalized.spawn_id normalized.seen with
    | some despawn_time =>
      if despawn_time ≠ 0 then
        { normalized with
          expire_timestamp := despawn_time
          time_till_hidden_ms := despawn_time * 1000 - request_time_ms
          valid := some Validity.fixed }
      else { normalized with valid := some Validity.invalid }
    | none => { normalized with valid := some Validity.invalid }
  else { normalized with valid := some Validity.valid }

/-- Accumulator of the cell-processing loop of `Worker.visit_point`:
the `pokemon_seen` / `forts_seen` locals, the `self.account_seen`
increments, and the entities handed to `db_processor.add`, in order. -/
structure Acc where
  pokemon_seen : Nat
  forts_seen : Nat
  account_seen : Nat
  persisted : List Entity
  deriving DecidableEq, Repr

/-- Wild-pokemon loop body of `Worker.visit_point` (worker.py lines
531-566), with notification disabled and deep-encounter off
(`config.NOTIFY = False`, `config.ENCOUNTER ≠ 'all'`): those sub-steps
issue further RPCs and do not change the accounting or persistence below. -/
def process_pokemon (C : Collab) (request_time_ms : Int) (acc : Acc)
    (raw : RawPokemon) : Acc :=
  let acc := { acc with pokemon_seen := acc.pokemon_seen + 1 }
  let normalized := classify_wild C raw request_time_ms
  if C.inSightingCache normalized = false ∧ C.inMysteryCache normalized = false then
    { acc with
      account_seen := acc.account_seen + 1
      persisted := acc.persisted ++ [Entity.pokemonE normalized] }
  else acc

/-- Fort loop body of `Worker.visit_point` (worker.py lines 567-586), with
pokestop spinning disabled (`config.SPIN_POKESTOPS = False`; spinning only
issues further RPCs). Disabled forts are skipped; a type-1 fort carrying
a lure first counts and conditionally persists the lured sighting, then
always persists the pokestop; any other enabled fort is persisted as a gym. -/
def process_fort (C : Collab) (request_time_ms : Int) (acc : Acc)
    (fort : RawFort) : Acc :=
  if fort.enabled = false then acc
  else
    let acc := { acc with forts_seen := acc.forts_seen + 1 }
    if fort.type = 1 then
      let acc :=
        match fort.lure_info with
        | some li =>
          let norm := normalize_lured fort li request_time_ms
          let acc := { acc with pokemon_seen := acc.pokemon_seen + 1 }
          if C.inLuredSightingCache norm = false then
            { acc with
              account_seen := acc.account_seen + 1
              persisted := acc.persisted ++ [Entity.luredE norm] }
          else acc
        | none => acc
      { acc with persisted := acc.persisted ++ [Entity.pokestopE (normalize_pokestop fort)] }
    else
      { acc with persisted := acc.persisted ++ [Entity.gymE (normalize_gym fort)] }

/-- One response map cell, with the fields `Worker.visit_point` reads;
the `spawn_points` entries are only consulted in bootstrap mode. -/
structure MapCell where
  current_timestamp_ms : Int
  wild_pokemons : List RawPokemon
  forts : List RawFort
  deriving DecidableEq, Repr

/-- Processing of one map cell in `Worker.visit_point` (the wild-pokemon
loop followed by the fort loop), at `bootstrap = False` (the bootstrap
branch, worker.py lines 587-595, only records candidate spawn coordinates). -/
def process_cell (C : Collab) (acc : Acc) (cell : MapCell) : Acc :=
  cell.forts.foldl (process_fort C cell.current_timestamp_ms)
    (cell.wild_pokemons.foldl (process_pokemon C cell.current_timestamp_ms) acc)

/-- Worker status codes set along the visit pipeline (`self.error_code`
values; the Python values are the strings named in each constructor's
comment). -/
inductive ErrorCode
  | bang            -- '!'
  | colon           -- ':'
  | comma           -- ','
  | unknownResponse -- 'UNKNOWNRESPONSE'
  | nothingSeen     -- 'NOTHING SEEN'
  | swapping        -- 'SWAPPING'
  | killedTag       -- 'KILLED'
  deriving DecidableEq, Repr

/-- Worker state read and written by `Worker.visit_point`: the empty-visit
counter, the seen counters (`self.account_seen`, `self.total_seen`, the
global `g['seen']`), the visit counter and the status code.
`circuit_failures` is `CIRCUIT_FAILURES[self.proxy]` (`none` when
`config.CONTROL_SOCKS` is off); `swaps` counts `swap_account` calls and
`circuit_swap_requests` counts `swap_circuit` calls, both `0` initially so
the pipeline's rotation decisions are observable. -/
structure WorkerState where
  empty_visits : Nat
  account_seen : Nat
  total_seen : Nat
  g_seen : Nat
  visits : Nat
  swaps : Nat
  error_code : Option ErrorCode
  circuit_failures : Option Nat
  circuit_swap_requests : Nat
  deriving DecidableEq, Repr

/-- Effect of `Worker.swap_account` (worker.py lines 775-787) followed by
`new_account` and `initialize_api` on the visit-accounting state, in the
steady state (worker not killed, account queue non-empty, `lock = False`):
the current identity is written back and released, a fresh one is adopted —
which resets `empty_visits` and `account_seen` (`initialize_api`, worker.py
lines 77-83) and clears the status code (`new_account`) — and one identity
swap is counted. -/
def swap_account (s : WorkerState) : WorkerState :=
  { s with
    swaps := s.swaps + 1
    empty_visits := 0
    account_seen := 0
    error_code := none }

/-- The `GET_MAP_OBJECTS` response as read by `Worker.visit_point`. -/
structure MapObjects where
  status : Int
  map_cells : List MapCell
  deriving DecidableEq, Repr

/-- Result of one `Worker.visit_point` call: the updated worker state, the
entities handed to `db_processor.add` in order, and the return value. -/
structure VisitPointResult where
  state : WorkerState
  persisted : List Entity
  returned : Bool
  deriving Repr

/-- Worker.visit_point (worker.py lines 483-632) from the map-fetch response
on: a non-success status increments the empty-visit counter, swaps the
identity past the threshold and reports failure (lines 520-528); otherwise
all cells are processed, then zero sightings with zero forts swaps
immediately (dead zone), zero sightings alone increments the counter
(swapping past the threshold) and bumps the egress path's failure counter
(rotating the circuit past 20), while any sighting resets both counters
(lines 597-619). Position/cell-grid handling, `MAP_WORKERS` reporting and
the final `update_accounts_dict` call touch no state modelled here. -/
def visit_point (C : Collab) (resp : MapObjects) (s : WorkerState) :
    VisitPointResult :=
  if resp.status ≠ 1 then
    let s1 := { s with
                error_code := some ErrorCode.unknownResponse
                empty_visits := s.empty_visits + 1 }
    let s2 := if s1.empty_visits > 2 then swap_account s1 else s1
    ⟨s2, [], false⟩
  else
    let acc := resp.map_cells.foldl (process_cell C)
      { pokemon_seen := 0, forts_seen := 0, account_seen := 0, persisted := [] }
    let s1 := { s with account_seen := s.account_seen + acc.account_seen }
    let s2 :=
      if acc.pokemon_seen > 0 then
        { s1 with
          error_code := some ErrorCode.colon
          total_seen := s1.total_seen + acc.pokemon_seen
          g_seen := s1.g_seen + acc.pokemon_seen
          empty_visits := 0
          circuit_failures := s1.circuit_failures.map fun _ => 0 }
      else
        let sA := { s1 with empty_visits := s1.empty_visits + 1 }
        let sB :=
          if acc.forts_seen = 0 then
            swap_account { sA with error_code := some ErrorCode.nothingSeen }
          else { sA with error_code := some ErrorCode.comma }
        let sC := if sB.empty_visits > 2 then swap_account sB else sB
        match sC.circuit_failures with
        | some n =>
          let sD := { sC with circuit_failures := some (n + 1) }
          if n + 1 > 20 then
            { sD with circuit_swap_requests := sD.circuit_swap_requests + 1 }
          else sD
        | none => sC
    ⟨{ s2 with visits := s2.visits + 1 }, acc.persisted, true⟩

/-- Outcome of one attempt of the body of the retry loop in `Worker.visit`
(login plus `visit_point`): either a normal return value or one of the
exception kinds the loop catches. -/
inductive AttemptOutcome
  | ok (visited : Bool)
  | loginFalse
  | serverSideAccessForbidden
  | authException
  | notLoggedIn
  | serverBusyOrOffline
  | throttling
  | bannedAccount
  | captcha
  | malformedResponse
  | otherException
  deriving DecidableEq, Repr

/-- Observable result of `Worker.visit`: how many attempts ran, how many
identity swaps (`swap_account` / `remove_account` / `bench_account`) and
circuit rotations were triggered, and the returned value. -/
structure VisitResult where
  attempts : Nat
  swaps : Nat
  circuit_swaps : Nat
  result : Bool
  deriving DecidableEq, Repr

/-- Loop body chain of `Worker.visit` (worker.py lines 421-481): `fuel` is
the number of loop iterations left out of 4, `attempts` the index of the
current attempt. Backoff sleeps are pure delays and are dropped. -/
def visitAux (outcomes : Nat → AttemptOutcome) :
    Nat → Nat → Nat → Nat → VisitResult
  | 0, attempts, swaps, circuit_swaps => ⟨attempts, swaps, circuit_swaps, false⟩
  | fuel + 1, attempts, swaps, circuit_swaps =>
    match outcomes attempts with
    | AttemptOutcome.ok v => ⟨attempts + 1, swaps, circuit_swaps, v⟩
    | AttemptOutcome.loginFalse =>
      visitAux outcomes fuel (attempts + 1) swaps circuit_swaps
    | AttemptOutcome.serverSideAccessForbidden =>
      visitAux outcomes fuel (attempts + 1) swaps (circuit_swaps + 1)
    | AttemptOutcome.authException => ⟨attempts + 1, swaps + 1, circuit_swaps, false⟩
    | AttemptOutcome.notLoggedIn => ⟨attempts + 1, swaps + 1, circuit_swaps, false⟩
    | AttemptOutcome.serverBusyOrOffline =>
      visitAux outcomes fuel (attempts + 1) swaps circuit_swaps
    | AttemptOutcome.throttling =>
      visitAux outcomes fuel (attempts + 1) swaps circuit_swaps
    | AttemptOutcome.bannedAccount => ⟨attempts + 1, swaps + 1, circuit_swaps, false⟩
    | AttemptOutcome.captcha => ⟨attempts + 1, swaps + 1, circuit_swaps, false⟩
    | AttemptOutcome.malformedResponse =>
      visitAux outcomes fuel (attempts + 1) swaps circuit_swaps
    | AttemptOutcome.otherException => ⟨attempts + 1, swaps, circuit_swaps, false⟩

/-- Worker.visit (worker.py lines 421-481): `for attempts in range(0, 4)`
around the attempt body, returning `False` when all four attempts are
exhausted without a terminal outcome. -/
def visit (outcomes : Nat → AttemptOutcome) : VisitResult :=
  visitAux outcomes 4 0 0 0

/-- One entry of `asyncio.Lock._waiters`: a future that is either still
awaited by a suspended acquirer or already cancelled. -/
structure Waiter where
  cancelled : Bool
  deriving DecidableEq, Repr

/-- State of `BusyLock` (an `asyncio.Lock`): the `_locked` flag and the
`_waiters` queue. -/
structure BusyLock where
  locked : Bool
  waiters : List Waiter
  deriving DecidableEq, Repr

/-- BusyLock.acquire_now (worker.py lines 900-906): returns whether the
takeover succeeded, together with the resulting lock state. -/
def BusyLock.acquire_now (l : BusyLock) : Bool × BusyLock :=
  if !l.locked && l.waiters.all (fun w => w.cancelled) then
    (true, { l with locked := true })
  else
    (false, l)

/-- Shared per-egress-path rotation state: `CIRCUIT_TIME[proxy]`,
`CIRCUIT_FAILURES[proxy]` (worker.py lines 26-30), plus an abstract
circuit identifier that the Tor `NEWNYM` signal replaces (modelled by
bumping a counter). Timestamps are `monotonic()` values, idealized as `ℚ`. -/
structure CircuitState where
  circuit_time : ℚ
  circuit_failures : Nat
  circuit_id : Nat
  deriving DecidableEq, Repr

/-- Worker.swap_circuit (worker.py lines 113-131) on one path, with
`config.CONTROL_SOCKS` enabled (otherwise the method only swaps the plain
proxy and the per-path table does not exist): rotate only when more than
180 seconds have passed since the path's last rotation, resetting the
path's timestamp and failure counter; otherwise do nothing. -/
def swap_circuit (now : ℚ) (s : CircuitState) : CircuitState :=
  if now - s.circuit_time > 180 then
    { circuit_time := now
      circuit_failures := 0
      circuit_id := s.circuit_id + 1 }
  else s

/-- Bookkeeping sub-calls `Worker.call_chain` appends to every primary RPC
(worker.py lines 363-376). -/
inductive SubCall
  | check_challenge
  | get_hatched_eggs
  | get_inventory (last_timestamp_ms : Option Int)
  | check_awarded_badges
  | download_settings (hash : Option Nat)
  | get_buddy_walked
  deriving DecidableEq, Repr

/-- Python truthiness of an optional integer (`None` and `0` are falsy). -/
def int_truthy : Option Int → Bool
  | some n => n != 0
  | none => false

/-- Request composition of `Worker.call_chain` (worker.py lines 363-376):
the fixed bookkeeping sub-calls appended to the primary RPC, as a list in
call order. The inventory delta cursor is used only when `stamp` is set and
`self.inventory_timestamp` is truthy; the settings hash only when `dl_hash`
is set; the buddy call only when `buddy` is set. Download hashes are
abstracted to numeric identifiers. -/
def chain_subcalls (inventory_timestamp : Option Int) (download_hash : Nat)
    (stamp buddy dl_hash : Bool) : List SubCall :=
  [SubCall.check_challenge,
   SubCall.get_hatched_eggs,
   (if stamp && int_truthy inventory_timestamp then
      SubCall.get_inventory inventory_timestamp
    else
      SubCall.get_inventory none),
   SubCall.check_awarded_badges,
   (if dl_hash then SubCall.download_settings (some download_hash)
    else SubCall.download_settings none)]
  ++ (if buddy then [SubCall.get_buddy_walked] else [])

/-- Decoded response tree as read by `Worker.call_chain` and
`Worker.check_captcha`: the outer status code, the inventory delta's new
cursor, the settings hash, and the `CHECK_CHALLENGE` payload's
`challenge_url` (with `none` modelling an absent key). -/
structure ChainResponses where
  status_code : Int
  new_inventory_timestamp : Option Int
  download_settings_hash : Option Nat
  challenge_url : Option String
  deriving DecidableEq, Repr

/-- Worker.check_captcha (worker.py lines 877-883): read the challenge URL
with the one-space string as the default for an absent key, and raise
`CaptchaException` (result `true`) exactly when it differs from that
one-space string. -/
def check_captcha (responses : ChainResponses) : Bool :=
  responses.challenge_url.getD " " != " "

/-- Cross-cutting worker state `Worker.call_chain` updates on every
response: the inventory delta cursor and the cached settings hash. -/
structure ChainState where
  inventory_timestamp : Option Int
  download_hash : Nat
  deriving DecidableEq, Repr

/-- Control-flow outcome of `Worker.call_chain`'s response processing. -/
inductive ChainOutcome
  | bannedAccount
  | captchaRaised
  | ok
  deriving DecidableEq, Repr

/-- Response processing of `Worker.call_chain` (worker.py lines 378-397):
an outer status code of 3 raises `BannedAccountException` before any state
update; otherwise the inventory cursor and settings hash are updated (a
falsy new value keeps the old one, per `timestamp or ...` and
`d_hash or ...`), and then `check_captcha` may raise `CaptchaException`.
Malformed-response handling (`TypeError`/`AttributeError` on a structurally
absent tree) is outside this record-typed model. -/
def call_chain_process (st : ChainState) (resp : ChainResponses) :
    ChainOutcome × ChainState :=
  if resp.status_code = 3 then (ChainOutcome.bannedAccount, st)
  else
    let st1 : ChainState :=
      { inventory_timestamp :=
          if int_truthy resp.new_inventory_timestamp then
            resp.new_inventory_timestamp
          else st.inventory_timestamp
        download_hash := resp.download_settings_hash.getD st.download_hash }
    if check_captcha resp then (ChainOutcome.captchaRaised, st1)
    else (ChainOutcome.ok, st1)

/-- Embedded auth-provider sub-object of the session client
(`self.api._auth_provider`), whose token fields `update_accounts_dict`
reads directly; `token_valid` is the result of `check_access_token()`. -/
structure AuthProvider where
  refresh_token : Option String
  access_token : Option String
  access_token_expiry : Option ℚ
  token_valid : Bool
  deriving DecidableEq, Repr

/-- One account record of the shared pool (the `self.account` dict), with
the keys `update_accounts_dict` and `new_account` touch. -/
structure AccountRecord where
  captcha : Bool
  banned : Bool
  location : ℚ × ℚ × ℚ
  time : ℚ
  inventory_timestamp : Option Int
  items : List (Nat × Nat)
  refresh : Option String
  auth : Option String
  expiry : Option ℚ
  deriving DecidableEq, Repr

/-- Worker state relevant to identity persistence: the current account
dict, the live fields mirrored into it on write-back, the session's auth
provider, the `ever_authenticated` and `killed` flags, the status code,
and the shared `accounts` pool (a map from username to record). -/
structure WorkerIdentity where
  username : String
  location : ℚ × ℚ × ℚ
  last_request : ℚ
  inventory_timestamp : Option Int
  items : List (Nat × Nat)
  account : AccountRecord
  auth_provider : Option AuthProvider
  ever_authenticated : Bool
  killed : Bool
  error_code : Option ErrorCode
  accounts : String → Option AccountRecord

/-- The account record `Worker.update_accounts_dict` builds from the live
worker fields (worker.py lines 744-758). -/
def persisted_record (w : WorkerIdentity) (captcha banned : Bool) :
    AccountRecord :=
  let acc := { w.account with
               captcha := captcha
               banned := banned
               location := w.location
               time := w.last_request
               inventory_timestamp := w.inventory_timestamp
               items := w.items }
  match w.auth_provider with
  | some ap =>
    let acc := { acc with refresh := ap.refresh_token }
    if ap.token_valid then
      { acc with auth := ap.access_token, expiry := ap.access_token_expiry }
    else
      { acc with auth := none, expiry := none }
  | none => acc

/-- Worker.update_accounts_dict (worker.py lines 744-760): refresh the
current account dict from the live fields and write it into the shared
pool under the worker's username. -/
def update_accounts_dict (w : WorkerIdentity) (captcha banned : Bool) :
    WorkerIdentity :=
  let acc := persisted_record w captcha banned
  { w with
    account := acc
    accounts := fun u => if u = w.username then some acc else w.accounts u }

/-- Worker.kill (worker.py lines 816-824): set the status code and the
killed flag, and write the identity back to the pool only when the worker
has ever been authenticated. -/
def kill (w : WorkerIdentity) : WorkerIdentity :=
  let w1 := { w with error_code := some ErrorCode.killedTag, killed := true }
  if w1.ever_authenticated then update_accounts_dict w1 false false else w1

/-- Worker.swap_account (worker.py lines 775-787) followed by
`new_account` (lines 789-805) on the identity-persistence state, in the
steady state (worker not killed, account queue non-empty, `lock = False`):
set the status code, write the current identity back to the pool, release
it, and adopt `newAcc` under `newName` — `initialize_api` then leaves
`ever_authenticated` set exactly when the new account carries a still-valid
stored token (`tokenStillValid`, worker.py lines 92-100). -/
def swap_account_identity (w : WorkerIdentity) (newName : String)
    (newAcc : AccountRecord) (tokenStillValid : Bool) : WorkerIdentity :=
  let w1 := update_accounts_dict
    { w with error_code := some ErrorCode.swapping } false false
  { w1 with
    username := newName
    account := newAcc
    location := newAcc.location
    last_request := newAcc.time
    inventory_timestamp := newAcc.inventory_timestamp
    items := newAcc.items
    ever_authenticated := tokenStillValid
    error_code := none }

/-! Helper lemmas and concrete fixtures shared across the claim proofs. -/

/-- Collaborators with empty caches and a despawn estimator that never
finds anything. -/
def collabNone : Collab :=
  { inSightingCache := fun _ => false
    inMysteryCache := fun _ => false
    inLuredSightingCache := fun _ => false
    get_despawn_time := fun _ _ => none }

/-- Fresh worker state: all counters zero, egress rotation disabled. -/
def stateZero : WorkerState :=
  { empty_visits := 0, account_seen := 0, total_seen := 0, g_seen := 0
    visits := 0, swaps := 0, error_code := none, circuit_failures := none
    circuit_swap_requests := 0 }

/-- A successful map-fetch response containing one cell with no wild
pokemon and no forts. -/
def moDeadZone : MapObjects :=
  { status := 1
    map_cells := [{ current_timestamp_ms := 0, wild_pokemons := [], forts := [] }] }

/-- A map-fetch response with a non-success status. -/
def moBadStatus : MapObjects := { status := 0, map_cells := [] }

lemma process_fort_disabled (C : Collab) (t : Int) (acc : Acc) (f : RawFort)
    (h : f.enabled = false) : process_fort C t acc f = acc := by
  simp [process_fort, h]

lemma foldl_process_fort_disabled (C : Collab) (t : Int) (l : List RawFort)
    (acc : Acc) (h : ∀ f ∈ l, f.enabled = false) :
    l.foldl (process_fort C t) acc = acc := by
  induction l generalizing acc with
  | nil => rfl
  | cons f fs ih =>
    rw [List.foldl_cons, process_fort_disabled C t acc f (h f (by simp))]
    exact ih acc fun g hg => h g (by simp [hg])

lemma process_cell_nothing (C : Collab) (acc : Acc) (cell : MapCell)
    (hw : cell.wild_pokemons = [])
    (hf : ∀ f ∈ cell.forts, f.enabled = false) :
    process_cell C acc cell = acc := by
  unfold process_cell
  rw [hw, List.foldl_nil]
  exact foldl_process_fort_disabled C cell.current_timestamp_ms cell.forts acc hf

lemma foldl_process_cell_nothing (C : Collab) (cells : List MapCell) (acc : Acc)
    (h : ∀ c ∈ cells, c.wild_pokemons = [] ∧ ∀ f ∈ c.forts, f.enabled = false) :
    cells.foldl (process_cell C) acc = acc := by
  induction cells generalizing acc with
  | nil => rfl
  | cons c cs ih =>
    rw [List.foldl_cons,
        process_cell_nothing C acc c (h c (by simp)).1 (h c (by simp)).2]
    exact ih acc fun d hd => h d (by simp [hd])

/-- C2. A coordinate visit whose every attempt raises
`ServerBusyOrOfflineException` performs exactly 4 attempts of the retry
loop, then reports failure without any identity swap. -/
theorem C2_retry_budget_busy_server (outcomes : Nat → AttemptOutcome)
    (h : ∀ i, outcomes i = AttemptOutcome.serverBusyOrOffline) :
    visit outcomes =
      { attempts := 4, swaps := 0, circuit_swaps := 0, result := false } := by
  simp [visit, visitAux, h]

/-- Witness for C2 at the constant busy-server outcome stream. -/
theorem C2_retry_budget_busy_server_witness :
    (∀ i : Nat, (fun _ => AttemptOutcome.serverBusyOrOffline) i
        = AttemptOutcome.serverBusyOrOffline)
    ∧ visit (fun _ => AttemptOutcome.serverBusyOrOffline) =
        { attempts := 4, swaps := 0, circuit_swaps := 0, result := false } :=
  ⟨fun _ => rfl,
   C2_retry_budget_busy_server (fun _ => AttemptOutcome.serverBusyOrOffline)
     (fun _ => rfl)⟩

/-- C4. `BusyLock.acquire_now` succeeds exactly when the gate is free and
no party is currently suspended waiting for it (every queued waiter is
cancelled, i.e. no longer suspended in `acquire`); on failure the state is
unchanged, on success the gate becomes held with the waiter queue intact. -/
theorem C4_acquire_now_iff_free_and_unwaited (l : BusyLock) :
    ((BusyLock.acquire_now l).1 = true ↔
      (l.locked = false ∧ ∀ w ∈ l.waiters, w.cancelled = true))
    ∧ (BusyLock.acquire_now l).2 =
        (if (BusyLock.acquire_now l).1 = true
         then { l with locked := true } else l) := by
  cases hcond : (!l.locked && l.waiters.all fun w => w.cancelled) with
  | true =>
    have hprop : l.locked = false ∧ ∀ w ∈ l.waiters, w.cancelled = true := by
      simpa [Bool.and_eq_true, Bool.not_eq_true', List.all_eq_true] using hcond
    have e : BusyLock.acquire_now l = (true, { l with locked := true }) := by
      unfold BusyLock.acquire_now
      rw [hcond]
      simp
    rw [e]
    exact ⟨⟨fun _ => hprop, fun _ => rfl⟩, by simp⟩
  | false =>
    have hprop : ¬(l.locked = false ∧ ∀ w ∈ l.waiters, w.cancelled = true) := by
      intro hc
      have hb : (!l.locked && l.waiters.all fun w => w.cancelled) = true := by
        rw [Bool.and_eq_true, Bool.not_eq_true']
        exact ⟨hc.1, List.all_eq_true.mpr hc.2⟩
      rw [hcond] at hb
      exact Bool.false_ne_true hb
    have e : BusyLock.acquire_now l = (false, l) := by
      unfold BusyLock.acquire_now
      rw [hcond]
      simp
    rw [e]
    exact ⟨⟨fun hfalse => absurd hfalse (by simp), fun hc => absurd hc hprop⟩, by simp⟩

/-- C8. With egress rotation enabled, `swap_circuit` rotates a path only
when more than 180 seconds have elapsed since that path's last rotation,
resetting the path's rotation timestamp and failure counter; a second call
within the 180-second window changes nothing for that path. -/
theorem C8_circuit_rotation_rate_limited (t1 t2 : ℚ) (s : CircuitState)
    (h1 : t1 - s.circuit_time > 180) (h2 : t2 - t1 ≤ 180) :
    swap_circuit t1 s =
      { circuit_time := t1, circuit_failures := 0, circuit_id := s.circuit_id + 1 }
    ∧ swap_circuit t2 (swap_circuit t1 s) = swap_circuit t1 s
    ∧ ∀ t3 (s3 : CircuitState), t3 - s3.circuit_time ≤ 180 →
        swap_circuit t3 s3 = s3 := by
  have e1 : swap_circuit t1 s =
      { circuit_time := t1, circuit_failures := 0, circuit_id := s.circuit_id + 1 } := by
    unfold swap_circuit
    rw [if_pos h1]
  have noop : ∀ t3 (s3 : CircuitState), t3 - s3.circuit_time ≤ 180 →
      swap_circuit t3 s3 = s3 := by
    intro t3 s3 h3
    unfold swap_circuit
    rw [if_neg (not_lt.mpr h3)]
  refine ⟨e1, ?_, noop⟩
  rw [e1]
  exact noop t2 _ (by simpa using h2)

/-- Witness for C8: first rotation at second 200 on a path last rotated at
second 0 with 5 accumulated failures, second call at second 300. -/
theorem C8_circuit_rotation_rate_limited_witness :
    ((200 : ℚ) - 0 > 180) ∧ ((300 : ℚ) - 200 ≤ 180)
    ∧ swap_circuit 200 { circuit_time := 0, circuit_failures := 5, circuit_id := 0 } =
        { circuit_time := 200, circuit_failures := 0, circuit_id := 1 }
    ∧ swap_circuit 300
        (swap_circuit 200 { circuit_time := 0, circuit_failures := 5, circuit_id := 0 }) =
        swap_circuit 200 { circuit_time := 0, circuit_failures := 5, circuit_id := 0 } := by
  have h := C8_circuit_rotation_rate_limited 200 300
    { circuit_time := 0, circuit_failures := 5, circuit_id := 0 }
    (by norm_num) (by norm_num)
  exact ⟨by norm_num, by norm_num, h.1, h.2.1⟩

/-- C1, counterexample. Three consecutive successful (status 1) visits with
zero wild-pokemon sightings and zero enabled forts trigger THREE identity
swaps — one per visit, because the dead-zone branch of `visit_point` calls
`swap_account` unconditionally on every such visit — not exactly one swap
over the three visits as the claim states. -/
theorem C1_counterexample_three_dead_zones_swap_thrice :
    (visit_point collabNone moDeadZone
      ((visit_point collabNone moDeadZone
        ((visit_point collabNone moDeadZone stateZero).state)).state)).state.swaps
      = 3 := by
  decide

/-- C1, amended. Every coordinate visit whose map-fetch response has
status 1 and contains zero wild-pokemon sightings and zero enabled forts
triggers exactly one identity swap during that visit, and the empty-visit
counter is zero afterward (so three consecutive such visits trigger three
swaps, one each). -/
theorem C1_dead_zone_visit_swaps_once (C : Collab) (resp : MapObjects)
    (s : WorkerState) (hstatus : resp.status = 1)
    (hcells : ∀ c ∈ resp.map_cells,
      c.wild_pokemons = [] ∧ ∀ f ∈ c.forts, f.enabled = false) :
    (visit_point C resp s).state.swaps = s.swaps + 1
    ∧ (visit_point C resp s).state.empty_visits = 0
    ∧ (visit_point C resp s).returned = true := by
  have hacc : resp.map_cells.foldl (process_cell C)
      { pokemon_seen := 0, forts_seen := 0, account_seen := 0, persisted := [] }
      = { pokemon_seen := 0, forts_seen := 0, account_seen := 0, persisted := [] } :=
    foldl_process_cell_nothing C resp.map_cells _ hcells
  rcases hc : s.circuit_failures with _ | n
  · simp [visit_point, hstatus, hacc, swap_account, hc]
  · by_cases h20 : n + 1 > 20 <;>
      simp [visit_point, hstatus, hacc, swap_account, hc, h20]

/-- Witness for C1 (amended) at a concrete one-cell dead-zone response. -/
theorem C1_dead_zone_visit_swaps_once_witness :
    moDeadZone.status = 1
    ∧ (∀ c ∈ moDeadZone.map_cells,
        c.wild_pokemons = [] ∧ ∀ f ∈ c.forts, f.enabled = false)
    ∧ (visit_point collabNone moDeadZone stateZero).state.swaps
        = stateZero.swaps + 1
    ∧ (visit_point collabNone moDeadZone stateZero).state.empty_visits = 0
    ∧ (visit_point collabNone moDeadZone stateZero).returned = true := by
  have h := C1_dead_zone_visit_swaps_once collabNone moDeadZone stateZero
    (by decide) (by decide)
  exact ⟨by decide, by decide, h.1, h.2.1, h.2.2⟩

/-- C5. A coordinate visit whose map-fetch response has a non-success
status increments the empty-visit counter and returns failure; starting
from a counter of zero, two consecutive such responses do not trigger an
identity swap, and a third consecutive one does (resetting the counter). -/
theorem C5_bad_status_three_strikes (C : Collab) (r1 r2 r3 : MapObjects)
    (s : WorkerState) (h1 : r1.status ≠ 1) (h2 : r2.status ≠ 1)
    (h3 : r3.status ≠ 1) (h0 : s.empty_visits = 0) :
    (visit_point C r1 s).returned = false
    ∧ (visit_point C r1 s).state.empty_visits = 1
    ∧ (visit_point C r1 s).state.swaps = s.swaps
    ∧ (visit_point C r2 (visit_point C r1 s).state).returned = false
    ∧ (visit_point C r2 (visit_point C r1 s).state).state.empty_visits = 2
    ∧ (visit_point C r2 (visit_point C r1 s).state).state.swaps = s.swaps
    ∧ (visit_point C r3 (visit_point C r2 (visit_point C r1 s).state).state).returned
        = false
    ∧ (visit_point C r3 (visit_point C r2 (visit_point C r1 s).state).state).state.empty_visits
        = 0
    ∧ (visit_point C r3 (visit_point C r2 (visit_point C r1 s).state).state).state.swaps
        = s.swaps + 1 := by
  simp [visit_point, swap_account, h1, h2, h3, h0]

/-- Witness for C5 at a concrete non-success response and a fresh state. -/
theorem C5_bad_status_three_strikes_witness :
    moBadStatus.status ≠ 1
    ∧ stateZero.empty_visits = 0
    ∧ (visit_point collabNone moBadStatus stateZero).state.empty_visits = 1
    ∧ (visit_point collabNone moBadStatus
        (visit_point collabNone moBadStatus stateZero).state).state.empty_visits = 2
    ∧ (visit_point collabNone moBadStatus
        (visit_point collabNone moBadStatus
          (visit_point collabNone moBadStatus stateZero).state).state).state.swaps
        = stateZero.swaps + 1 := by
  have h := C5_bad_status_three_strikes collabNone moBadStatus moBadStatus
    moBadStatus stateZero (by decide) (by decide) (by decide) (by decide)
  exact ⟨by decide, by decide, h.2.1, h.2.2.2.2.1, h.2.2.2.2.2.2.2.2⟩

/-- C3. For a wild sighting processed by the visit pipeline: an in-range
`time_till_hidden_ms` (between 0 and 90000) yields `valid = True` and an
expiry computed directly from the reported value,
`round((current_timestamp_ms + time_till_hidden_ms) / 1000)`; out of range,
validity comes solely from the despawn estimator — a found despawn time
patches expiry and tth and marks the sighting `'fixed'`, an absent result
marks it invalid. The hypothesis `hD` states the estimator interface
assumption that a found despawn timestamp is never the integer 0 (Python's
truthiness test `if despawn_time:` would conflate it with an absent
result). -/
theorem C3_tth_validity_classification (C : Collab) (raw : RawPokemon)
    (t : Int)
    (hD : ∀ d, C.get_despawn_time (normalize_pokemon raw t).spawn_id
        (normalize_pokemon raw t).seen = some d → d ≠ 0) :
    (0 ≤ raw.time_till_hidden_ms → raw.time_till_hidden_ms ≤ 90000 →
      (classify_wild C raw t).valid = some Validity.valid
      ∧ (classify_wild C raw t).expire_timestamp
          = pyRound (((t + raw.time_till_hidden_ms : ℤ) : ℚ) / 1000))
    ∧ (∀ d, (raw.time_till_hidden_ms < 0 ∨ 90000 < raw.time_till_hidden_ms) →
        C.get_despawn_time (normalize_pokemon raw t).spawn_id
            (normalize_pokemon raw t).seen = some d →
        (classify_wild C raw t).valid = some Validity.fixed
        ∧ (classify_wild C raw t).expire_timestamp = d
        ∧ (classify_wild C raw t).time_till_hidden_ms = d * 1000 - t)
    ∧ ((raw.time_till_hidden_ms < 0 ∨ 90000 < raw.time_till_hidden_ms) →
        C.get_despawn_time (normalize_pokemon raw t).spawn_id
            (normalize_pokemon raw t).seen = none →
        (classify_wild C raw t).valid = some Validity.invalid) := by
  refine ⟨?_, ?_, ?_⟩
  · intro hlo hhi
    have hrange : ¬(raw.time_till_hidden_ms < 0 ∨ raw.time_till_hidden_ms > 90000) := by
      push_neg
      exact ⟨hlo, hhi⟩
    simp [classify_wild, hrange, normalize_pokemon]
  · intro d hout hsome
    have hd := hD d hsome
    simp [classify_wild, hout, hsome, hd]
  · intro hout hnone
    simp [classify_wild, hout, hnone]

/-- Concrete wild sighting with an in-range `time_till_hidden_ms`. -/
def rawWild45 : RawPokemon :=
  { encounter_id := 11, pokemon_id := 16, time_till_hidden_ms := 45000
    latitude := 1, longitude := 2, last_modified_timestamp_ms := 1000000
    spawn_point_id := 77 }

/-- Witness for C3: the in-range branch at `time_till_hidden_ms = 45000`,
request time 1000000 ms, with an estimator that never answers. -/
theorem C3_tth_validity_classification_witness :
    (∀ d, collabNone.get_despawn_time (normalize_pokemon rawWild45 1000000).spawn_id
        (normalize_pokemon rawWild45 1000000).seen = some d → d ≠ 0)
    ∧ (classify_wild collabNone rawWild45 1000000).valid = some Validity.valid
    ∧ (classify_wild collabNone rawWild45 1000000).expire_timestamp
        = pyRound (((1000000 + rawWild45.time_till_hidden_ms : ℤ) : ℚ) / 1000) := by
  have hD : ∀ d, collabNone.get_despawn_time
      (normalize_pokemon rawWild45 1000000).spawn_id
      (normalize_pokemon rawWild45 1000000).seen = some d → d ≠ 0 := by
    intro d hd
    simp [collabNone] at hd
  have h := C3_tth_validity_classification collabNone rawWild45 1000000 hD
  exact ⟨hD, (h.1 (by decide) (by decide)).1, (h.1 (by decide) (by decide)).2⟩

/-- C6, counterexample. An empty-string challenge URL in the
`CHECK_CHALLENGE` payload RAISES `CaptchaException` (the claim says an
empty URL must not fail), while the single-space URL — a non-empty string —
does NOT raise (the claim says any non-empty URL must fail): the code's
test is `challenge_url != ' '` with `' '` also the absent-key default, not
a non-emptiness test. -/
theorem C6_counterexample_empty_vs_space_url :
    (call_chain_process { inventory_timestamp := none, download_hash := 0 }
        { status_code := 1, new_inventory_timestamp := none
          download_settings_hash := none, challenge_url := some "" }).1
      = ChainOutcome.captchaRaised
    ∧ (call_chain_process { inventory_timestamp := none, download_hash := 0 }
        { status_code := 1, new_inventory_timestamp := none
          download_settings_hash := none, challenge_url := some " " }).1
      = ChainOutcome.ok := by
  decide

/-- C6, amended. For every response processed by `call_chain` whose outer
status is not the banned code, the wrapper raises `CaptchaException` if and
only if the challenge-check payload's challenge URL — taken as the
one-space string when the key is absent — differs from the one-space
string; and the challenge check is part of the sub-call chain composed for
every primary RPC. -/
theorem C6_captcha_check_sentinel (st : ChainState) (resp : ChainResponses)
    (hb : resp.status_code ≠ 3) :
    ((call_chain_process st resp).1 = ChainOutcome.captchaRaised ↔
      resp.challenge_url.getD " " ≠ " ")
    ∧ (∀ (ts : Option Int) (dh : Nat) (stamp buddy dlh : Bool),
        SubCall.check_challenge ∈ chain_subcalls ts dh stamp buddy dlh) := by
  constructor
  · cases hcc : check_captcha resp with
    | true =>
      have hne : resp.challenge_url.getD " " ≠ " " := by
        simpa [check_captcha, bne_iff_ne] using hcc
      simp [call_chain_process, hb, hcc, hne]
    | false =>
      have heq : resp.challenge_url.getD " " = " " := by
        simpa [check_captcha, bne_iff_ne] using hcc
      simp [call_chain_process, hb, hcc, heq]
  · intro ts dh stamp buddy dlh
    simp [chain_subcalls]

/-- Witness for C6 (amended) at a response carrying a real challenge URL. -/
theorem C6_captcha_check_sentinel_witness :
    ((1 : Int) ≠ 3)
    ∧ ((call_chain_process { inventory_timestamp := none, download_hash := 0 }
          { status_code := 1, new_inventory_timestamp := none
            download_settings_hash := none
            challenge_url := some "u" }).1 = ChainOutcome.captchaRaised ↔
        (({ status_code := 1, new_inventory_timestamp := none
            download_settings_hash := none
            challenge_url := some "u" } : ChainResponses).challenge_url.getD " " ≠ " "))
    ∧ SubCall.check_challenge ∈ chain_subcalls none 0 true true true := by
  have h := C6_captcha_check_sentinel
    { inventory_timestamp := none, download_hash := 0 }
    { status_code := 1, new_inventory_timestamp := none
      download_settings_hash := none, challenge_url := some "u" }
    (by decide)
  exact ⟨by decide, h.1, h.2 none 0 true true true⟩

/-- A never-authenticated worker identity over an empty shared pool. -/
def workerUnauth : WorkerIdentity :=
  { username := "alice"
    location := (0, 0, 0)
    last_request := 0
    inventory_timestamp := none
    items := []
    account :=
      { captcha := false, banned := false, location := (0, 0, 0), time := 0
        inventory_timestamp := none, items := [], refresh := none
        auth := none, expiry := none }
    auth_provider := none
    ever_authenticated := false
    killed := false
    error_code := none
    accounts := fun _ => none }

/-- C7, counterexample. A worker that was never authenticated writes
nothing back to the shared pool on shutdown: `kill` persists the identity
only `if self.ever_authenticated`, not regardless of authentication
history as the claim states. -/
theorem C7_counterexample_unauthenticated_kill_persists_nothing :
    workerUnauth.ever_authenticated = false
    ∧ (kill workerUnauth).killed = true
    ∧ (kill workerUnauth).accounts "alice" = none := by
  refine ⟨rfl, rfl, rfl⟩

/-- C7, amended. Identity state (position, last-request time, inventory
snapshot and cursor, credentials, banned/challenged flags) is written back
to the shared account pool on every identity swap unconditionally; on
worker shutdown (`kill`) it is written back exactly when the worker has
ever been authenticated, and otherwise the pool is left untouched. -/
theorem C7_identity_persisted_on_swap_and_authenticated_kill
    (w : WorkerIdentity) (newName : String) (newAcc : AccountRecord)
    (tokenStillValid : Bool) :
    (swap_account_identity w newName newAcc tokenStillValid).accounts w.username
      = some (persisted_record w false false)
    ∧ (kill w).accounts w.username
      = (if w.ever_authenticated = true then some (persisted_record w false false)
         else w.accounts w.username) := by
  constructor
  · simp [swap_account_identity, update_accounts_dict, persisted_record]
  · cases ha : w.ever_authenticated with
    | true => simp [kill, ha, update_accounts_dict, persisted_record]
    | false => simp [kill, ha]

/-- C9, counterexample. An enabled type-1 fort carrying lure information
whose synthesized lured sighting is already in the sighting cache persists
exactly ONE entity (the waypoint alone), not the two entities the claim
requires of every such fort record. -/
theorem C9_counterexample_cached_lure_persists_one :
    (process_fort
      { inSightingCache := fun _ => false
        inMysteryCache := fun _ => false
        inLuredSightingCache := fun _ => true
        get_despawn_time := fun _ _ => none }
      0
      { pokemon_seen := 0, forts_seen := 0, account_seen := 0, persisted := [] }
      { id := 5, enabled := true, type := 1, latitude := 1, longitude := 2
        owned_by_team := 0, gym_points := 0, guard_pokemon_id := 0
        last_modified_timestamp_ms := 0
        lure_info := some { encounter_id := 9, active_pokemon_id := 16
                            lure_expires_timestamp_ms := 60000 }
        cooldown_complete_timestamp_ms := none }).persisted.length = 1 := by
  rfl

/-- C9, amended. Processing one enabled type-1 fort record carrying lure
information always persists the waypoint entity; when the synthesized
lured sighting is not already in the sighting cache, it is persisted first,
so a fresh lured waypoint yields exactly the two entities
[lured sighting, waypoint] in that order, while an already-cached lured
sighting yields only the waypoint. -/
theorem C9_lured_fort_persists_lure_then_waypoint (C : Collab) (t : Int)
    (acc : Acc) (fort : RawFort) (li : LureInfo)
    (hen : fort.enabled = true) (hty : fort.type = 1)
    (hli : fort.lure_info = some li) :
    (process_fort C t acc fort).persisted =
      acc.persisted ++
        (if C.inLuredSightingCache (normalize_lured fort li t) = false then
          [Entity.luredE (normalize_lured fort li t),
           Entity.pokestopE (normalize_pokestop fort)]
         else [Entity.pokestopE (normalize_pokestop fort)]) := by
  by_cases hc : C.inLuredSightingCache (normalize_lured fort li t) = false
  · simp [process_fort, hen, hty, hli, hc]
  · simp [process_fort, hen, hty, hli, hc]

/-- Concrete enabled lured fort used by the C9 witness. -/
def fortLured : RawFort :=
  { id := 5, enabled := true, type := 1, latitude := 1, longitude := 2
    owned_by_team := 0, gym_points := 0, guard_pokemon_id := 0
    last_modified_timestamp_ms := 0
    lure_info := some { encounter_id := 9, active_pokemon_id := 16
                        lure_expires_timestamp_ms := 60000 }
    cooldown_complete_timestamp_ms := none }

/-- Witness for C9 (amended): a fresh (uncached) lured fort persists the
lured sighting followed by the waypoint. -/
theorem C9_lured_fort_persists_lure_then_waypoint_witness :
    fortLured.enabled = true ∧ fortLured.type = 1
    ∧ fortLured.lure_info = some { encounter_id := 9, active_pokemon_id := 16
                                   lure_expires_timestamp_ms := 60000 }
    ∧ (process_fort collabNone 0
        { pokemon_seen := 0, forts_seen := 0, account_seen := 0, persisted := [] }
        fortLured).persisted =
      [] ++
        (if collabNone.inLuredSightingCache
            (normalize_lured fortLured
              { encounter_id := 9, active_pokemon_id := 16
                lure_expires_timestamp_ms := 60000 } 0) = false then
          [Entity.luredE (normalize_lured fortLured
              { encounter_id := 9, active_pokemon_id := 16
                lure_expires_timestamp_ms := 60000 } 0),
           Entity.pokestopE (normalize_pokestop fortLured)]
         else [Entity.pokestopE (normalize_pokestop fortLured)]) := by
  refine ⟨rfl, rfl, rfl, ?_⟩
  exact C9_lured_fort_persists_lure_then_waypoint collabNone 0
    { pokemon_seen := 0, forts_seen := 0, account_seen := 0, persisted := [] }
    fortLured
    { encounter_id := 9, active_pokemon_id := 16
      lure_expires_timestamp_ms := 60000 }
    rfl rfl rfl

/-- Property of a persisted entity: if it is a lured sighting, its validity
tag is the constant `'pokestop'` and its spawn identifier is `-1`. -/
def lured_ok : Entity → Bool
  | Entity.luredE l => (l.valid == Validity.pokestop) && (l.spawn_id == -1)
  | _ => true

lemma lured_ok_append (l1 l2 : List Entity)
    (h1 : l1.all lured_ok = true) (h2 : l2.all lured_ok = true) :
    (l1 ++ l2).all lured_ok = true := by
  rw [List.all_append, h1, h2]
  rfl

lemma process_pokemon_lured_ok (C : Collab) (t : Int) (acc : Acc)
    (raw : RawPokemon) (h : acc.persisted.all lured_ok = true) :
    (process_pokemon C t acc raw).persisted.all lured_ok = true := by
  unfold process_pokemon
  by_cases hc : C.inSightingCache (classify_wild C raw t) = false
      ∧ C.inMysteryCache (classify_wild C raw t) = false
  · simp only [if_pos hc]
    exact lured_ok_append _ _ h rfl
  · simp only [if_neg hc]
    exact h

lemma process_fort_lured_ok (C : Collab) (t : Int) (acc : Acc)
    (fort : RawFort) (h : acc.persisted.all lured_ok = true) :
    (process_fort C t acc fort).persisted.all lured_ok = true := by
  unfold process_fort
  by_cases hen : fort.enabled = false
  · simp only [if_pos hen]
    exact h
  · simp only [if_neg hen]
    by_cases hty : fort.type = 1
    · simp only [if_pos hty]
      cases hli : fort.lure_info with
      | none => exact lured_ok_append _ _ h rfl
      | some li =>
        by_cases hc : C.inLuredSightingCache (normalize_lured fort li t) = false
        · simp only [hli, if_pos hc]
          exact lured_ok_append _ _ (lured_ok_append _ _ h rfl) rfl
        · simp only [hli, if_neg hc]
          exact lured_ok_append _ _ h rfl
    · simp only [if_neg hty]
      exact lured_ok_append _ _ h rfl

lemma foldl_process_pokemon_lured_ok (C : Collab) (t : Int)
    (l : List RawPokemon) (acc : Acc) (h : acc.persisted.all lured_ok = true) :
    (l.foldl (process_pokemon C t) acc).persisted.all lured_ok = true := by
  induction l generalizing acc with
  | nil => exact h
  | cons raw rest ih =>
    exact ih _ (process_pokemon_lured_ok C t acc raw h)

lemma foldl_process_fort_lured_ok (C : Collab) (t : Int)
    (l : List RawFort) (acc : Acc) (h : acc.persisted.all lured_ok = true) :
    (l.foldl (process_fort C t) acc).persisted.all lured_ok = true := by
  induction l generalizing acc with
  | nil => exact h
  | cons fort rest ih =>
    exact ih _ (process_fort_lured_ok C t acc fort h)

lemma process_cell_lured_ok (C : Collab) (acc : Acc) (cell : MapCell)
    (h : acc.persisted.all lured_ok = true) :
    (process_cell C acc cell).persisted.all lured_ok = true := by
  unfold process_cell
  exact foldl_process_fort_lured_ok C cell.current_timestamp_ms cell.forts _
    (foldl_process_pokemon_lured_ok C cell.current_timestamp_ms
      cell.wild_pokemons acc h)

lemma foldl_process_cell_lured_ok (C : Collab) (cells : List MapCell)
    (acc : Acc) (h : acc.persisted.all lured_ok = true) :
    (cells.foldl (process_cell C) acc).persisted.all lured_ok = true := by
  induction cells generalizing acc with
  | nil => exact h
  | cons cell rest ih =>
    exact ih _ (process_cell_lured_ok C acc cell h)

/-- C10. `normalize_lured` sets the validity tag to the constant
`'pokestop'` and the spawn identifier to `-1` for every input — in
particular independently of any reported timing values — and consequently
every lured sighting that the visit pipeline persists carries
`valid = 'pokestop'` and `spawn_id = -1`: lured sightings never pass
through the time-till-hidden classification or the despawn-estimator
lookup applied to wild sightings. -/
theorem C10_lured_sightings_bypass_validity_classification :
    (∀ (fort : RawFort) (li : LureInfo) (now : Int),
      (normalize_lured fort li now).valid = Validity.pokestop
      ∧ (normalize_lured fort li now).spawn_id = -1)
    ∧ ∀ (C : Collab) (resp : MapObjects) (s : WorkerState),
        (visit_point C resp s).persisted.all lured_ok = true := by
  constructor
  · intro fort li now
    exact ⟨rfl, rfl⟩
  · intro C resp s
    unfold visit_point
    by_cases hst : resp.status ≠ 1
    · simp only [if_pos hst]
      rfl
    · simp only [if_neg hst]
      exact foldl_process_cell_lured_ok C resp.map_cells _ rfl

end Monocle
